import Mathlib

/-!
Shallow embedding of the tax computation and optimization engine of
`fiscalia_backend/app/services/tax_calculator.py` (class `FrenchTaxCalculator`).

Conventions:
- Python floats are modelled as exact rationals (`ℚ`); decimal literals of the
  source become the corresponding rationals.
- Python dict results become Lean structures with the same field names.
  A dict key that is present only on some branches becomes an `Option` field
  (`none` = key absent).
- Python's `ZeroDivisionError` on float division by zero is modelled by an
  `Option`-returning wrapper (`none` = the call raises).
- The source's `while` loop in the optimizer's binary search is modelled with
  a fuel parameter large enough that the stopping rule `high - low <= 100` is
  always reached before the fuel runs out on the inputs considered (each
  iteration halves the interval, so 64 halvings suffice for any interval of
  length below 100 * 2 ^ 64); once the stopping rule holds the step is the
  identity, so extra fuel does not change the result.
-/

/-- Employer social-charges rate on salary (source: `social_charges_rates['salary']['employer'] = 0.42`). -/
def employer_rate : ℚ := 42 / 100

/-- Employee social-charges rate on salary (source: `social_charges_rates['salary']['employee'] = 0.22`). -/
def employee_rate : ℚ := 22 / 100

/-- Social-charges rate on dividends (source: `social_charges_rates['dividends']['social'] = 0.172`). -/
def dividends_social_rate : ℚ := 172 / 1000

/-- Flat-tax (PFU) rate on dividends (source: `social_charges_rates['dividends']['pfu'] = 0.128`). -/
def dividends_pfu_rate : ℚ := 128 / 1000

/-- Hourly minimum wage (source: `settings.SMIC_HOURLY = 11.52`). -/
def SMIC_HOURLY : ℚ := 1152 / 100

/-- Annualized minimum wage (source: `self.smic_annual = settings.SMIC_HOURLY * 35 * 52`). -/
def smic_annual : ℚ := SMIC_HOURLY * 35 * 52

/-- Corporate tax brackets (source: `corporate_tax_rates = [(42500, 0.15), (float('inf'), 0.25)]`);
`none` stands for the `float('inf')` threshold. -/
def corporate_tax_rates : List (Option ℚ × ℚ) :=
  [(some 42500, 15 / 100), (none, 25 / 100)]

/-- Income tax brackets (source: `income_tax_brackets`); `none` stands for `float('inf')`. -/
def income_tax_brackets : List (Option ℚ × ℚ) :=
  [(some 11294, 0), (some 28797, 11 / 100), (some 82341, 30 / 100),
   (some 177106, 41 / 100), (none, 45 / 100)]

/-- Result dict of `calculate_social_charges_on_salary`. -/
structure SalaryBreakdown where
  gross_salary : ℚ
  employer_charges : ℚ
  employee_charges : ℚ
  total_social_charges : ℚ
  net_salary : ℚ
  total_cost_to_company : ℚ
deriving Repr, DecidableEq

/-- Embedding of `calculate_social_charges_on_salary` (source lines 57-74).
The source performs no input validation: it returns a breakdown for every
`gross_salary`, negative values included. -/
def calculate_social_charges_on_salary (gross_salary : ℚ) : SalaryBreakdown :=
  let employer_charges := gross_salary * employer_rate
  let employee_charges := gross_salary * employee_rate
  let net_salary := gross_salary - employee_charges
  let total_cost := gross_salary + employer_charges
  { gross_salary := gross_salary
    employer_charges := employer_charges
    employee_charges := employee_charges
    total_social_charges := employer_charges + employee_charges
    net_salary := net_salary
    total_cost_to_company := total_cost }

/-- One pass of the source's `for threshold, rate in self.corporate_tax_rates`
loop (source lines 86-95).  Arguments: the original `profit_before_tax` `p`,
the first bracket's threshold (`corporate_tax_rates[0][0]`, used by the
source's reset step), the remaining brackets, `remaining_profit`, and the
accumulated `tax`.  `min rem inf = rem` is the `none` case. -/
def corpLoop (p : ℚ) (first_thr : Option ℚ) :
    List (Option ℚ × ℚ) → ℚ → ℚ → ℚ
  | [], _, tax => tax
  | (thr, rate) :: rest, rem, tax =>
    if rem ≤ 0 then tax
    else
      let taxable :=
        match thr with
        | some t => min rem t
        | none => rem
      let tax' := tax + taxable * rate
      let rem' := rem - taxable
      -- source: `if threshold == self.corporate_tax_rates[0][0]:` then
      -- `remaining_profit = profit_before_tax - threshold if profit_before_tax > threshold else 0`
      let rem'' :=
        if thr = first_thr then
          match thr with
          | some t => if p > t then p - t else 0
          | none => rem'
        else rem'
      corpLoop p first_thr rest rem'' tax'

/-- Embedding of `calculate_corporate_tax` (source lines 76-97). -/
def calculate_corporate_tax (profit_before_tax : ℚ) : ℚ :=
  if profit_before_tax ≤ 0 then 0
  else
    corpLoop profit_before_tax corporate_tax_rates.headI.1
      corporate_tax_rates profit_before_tax 0

/-- The source's indexed bracket walk of `calculate_income_tax`
(source lines 113-130), carrying the previous bracket's threshold
(`0` for the first bracket, so `income_per_part * rate` there equals
`(income_per_part - prev) * rate`).  The `none` threshold (`float('inf')`)
always satisfies `income_per_part <= threshold`. -/
def incomeTaxWalk (income_per_part : ℚ) :
    List (Option ℚ × ℚ) → ℚ → ℚ → ℚ
  | [], _, acc => acc
  | (thr, rate) :: rest, prev, acc =>
    match thr with
    | some t =>
      if income_per_part ≤ t then acc + (income_per_part - prev) * rate
      else incomeTaxWalk income_per_part rest t (acc + (t - prev) * rate)
    | none => acc + (income_per_part - prev) * rate

/-- Embedding of `calculate_income_tax` (source lines 99-131) as a total
function over `ℚ` (Lean's `x / 0 = 0` convention; the engine only calls it
with `parts = 1`, the Python default).  The `Option` wrapper
`calculate_income_tax_checked` below models Python's fallibility at
`parts = 0`. -/
def calculate_income_tax (taxable_income : ℚ) (parts : ℚ) : ℚ :=
  if taxable_income ≤ 0 then 0
  else
    let income_per_part := taxable_income / parts
    let tax_per_part := incomeTaxWalk income_per_part income_tax_brackets 0 0
    tax_per_part * parts

/-- Embedding of `calculate_income_tax` with Python's error behaviour made
explicit: the expression `taxable_income / parts` raises `ZeroDivisionError`
exactly when it is reached (`taxable_income > 0`) with `parts == 0.0`;
`none` models that raise.  The source contains no input validation and no
`InvalidInput` error of its own. -/
def calculate_income_tax_checked (taxable_income : ℚ) (parts : ℚ) : Option ℚ :=
  if taxable_income ≤ 0 then some 0
  else if parts = 0 then none
  else some (calculate_income_tax taxable_income parts)

/-- Result dict of `calculate_dividends_taxation`.  The source's early-return
branch for `dividends <= 0` (lines 137-144) builds a dict WITHOUT the
`'effective_rate'` key, so that field is an `Option` (`none` = key absent). -/
structure DividendBreakdown where
  dividends : ℚ
  social_charges : ℚ
  income_tax : ℚ
  total_tax : ℚ
  net_dividends : ℚ
  effective_rate : Option ℚ
deriving Repr, DecidableEq

/-- Embedding of `calculate_dividends_taxation` (source lines 133-162). -/
def calculate_dividends_taxation (dividends : ℚ) : DividendBreakdown :=
  if dividends ≤ 0 then
    { dividends := 0
      social_charges := 0
      income_tax := 0
      total_tax := 0
      net_dividends := 0
      effective_rate := none }
  else
    let social_charges := dividends * dividends_social_rate
    let income_tax := dividends * dividends_pfu_rate
    let total_tax := social_charges + income_tax
    let net_dividends := dividends - total_tax
    { dividends := dividends
      social_charges := social_charges
      income_tax := income_tax
      total_tax := total_tax
      net_dividends := net_dividends
      effective_rate := some (if dividends > 0 then total_tax / dividends else 0) }

/-- Result dict of `calculate_vat`. -/
structure VatResult where
  vat_collected : ℚ
  vat_deductible : ℚ
  vat_to_pay : ℚ
  vat_rate : ℚ
deriving Repr, DecidableEq

/-- Embedding of `calculate_vat` (source lines 164-178); the Python default
argument is `vat_rate = 0.20`. -/
def calculate_vat (revenue : ℚ) (expenses : ℚ) (vat_rate : ℚ) : VatResult :=
  let vat_collected := revenue * vat_rate
  let vat_deductible := expenses * vat_rate
  { vat_collected := vat_collected
    vat_deductible := vat_deductible
    vat_to_pay := max 0 (vat_collected - vat_deductible)
    vat_rate := vat_rate }

/-- The `'input'` sub-dict of `calculate_complete_taxation`'s result. -/
structure InputEcho where
  gross_salary : ℚ
  dividends : ℚ
  revenue : ℚ
  expenses : ℚ
deriving Repr, DecidableEq

/-- The `'corporate'` sub-dict of `calculate_complete_taxation`'s result. -/
structure CorporateResult where
  profit_before_tax : ℚ
  corporate_tax : ℚ
  profit_after_tax : ℚ
  available_for_dividends : ℚ
deriving Repr, DecidableEq

/-- The `'income_tax'` sub-dict of `calculate_complete_taxation`'s result. -/
structure IncomeTaxSection where
  taxable_salary : ℚ
  tax_on_salary : ℚ
  total : ℚ
deriving Repr, DecidableEq

/-- The `'summary'` sub-dict of `calculate_complete_taxation`'s result. -/
structure Summary where
  total_social_charges : ℚ
  total_corporate_tax : ℚ
  total_income_tax : ℚ
  total_vat : ℚ
  total_taxes : ℚ
  net_income : ℚ
  effective_tax_rate : ℚ
deriving Repr, DecidableEq

/-- The nested result dict of `calculate_complete_taxation`. -/
structure TaxationResult where
  input : InputEcho
  salary : SalaryBreakdown
  corporate : CorporateResult
  dividends : DividendBreakdown
  income_tax : IncomeTaxSection
  vat : VatResult
  summary : Summary
deriving Repr, DecidableEq

/-- Embedding of `calculate_complete_taxation` (source lines 180-263); the
Python default argument is `vat_rate = 0.20` and the engine calls
`calculate_income_tax` with its default `parts = 1.0`. -/
def calculate_complete_taxation (gross_salary dividends revenue expenses : ℚ)
    (vat_rate : ℚ) : TaxationResult :=
  let salary_charges := calculate_social_charges_on_salary gross_salary
  let total_salary_cost := salary_charges.total_cost_to_company
  let profit_before_tax := revenue - expenses - total_salary_cost
  let corporate_tax := calculate_corporate_tax profit_before_tax
  let profit_after_tax := profit_before_tax - corporate_tax
  -- source: `actual_dividends = min(dividends, max(0, profit_after_tax))`
  let actual_dividends := min dividends (max 0 profit_after_tax)
  let dividend_tax := calculate_dividends_taxation actual_dividends
  let taxable_salary := salary_charges.net_salary * (9 / 10)
  let income_tax_salary := calculate_income_tax taxable_salary 1
  let vat := calculate_vat revenue expenses vat_rate
  let total_social_charges :=
    salary_charges.total_social_charges + dividend_tax.social_charges
  let total_income_tax := income_tax_salary + dividend_tax.income_tax
  let total_taxes :=
    salary_charges.total_social_charges + corporate_tax +
      dividend_tax.total_tax + income_tax_salary + vat.vat_to_pay
  let net_income :=
    salary_charges.net_salary - income_tax_salary + dividend_tax.net_dividends
  let effective_tax_rate := if revenue > 0 then total_taxes / revenue else 0
  { input :=
      { gross_salary := gross_salary
        dividends := dividends
        revenue := revenue
        expenses := expenses }
    salary := salary_charges
    corporate :=
      { profit_before_tax := profit_before_tax
        corporate_tax := corporate_tax
        profit_after_tax := profit_after_tax
        available_for_dividends := max 0 profit_after_tax }
    dividends := dividend_tax
    income_tax :=
      { taxable_salary := taxable_salary
        tax_on_salary := income_tax_salary
        total := total_income_tax }
    vat := vat
    summary :=
      { total_social_charges := total_social_charges
        total_corporate_tax := corporate_tax
        total_income_tax := total_income_tax
        total_vat := vat.vat_to_pay
        total_taxes := total_taxes
        net_income := net_income
        effective_tax_rate := effective_tax_rate } }

/-- The `constraints` dict of `optimize_remuneration`: each key may be absent. -/
structure Constraints where
  min_salary : Option ℚ
  max_salary : Option ℚ
deriving Repr, DecidableEq

/-- Loop state of `optimize_remuneration` (source lines 281-284):
`best_salary`, `best_dividends`, `min_total_tax` (where `none` models the
initial `float('inf')`) and `best_result`. -/
structure OptState where
  best_salary : ℚ
  best_dividends : ℚ
  min_total_tax : Option ℚ
  best_result : Option TaxationResult
deriving Repr, DecidableEq

/-- Comparison against `min_total_tax`, where `none` models `float('inf')`
(every rational is below it). -/
def lt_opt (x : ℚ) : Option ℚ → Bool
  | none => true
  | some m => decide (x < m)

/-- Fuel for the binary-search `while high - low > 100` loop of
`optimize_remuneration` (source lines 306-315).  Each iteration halves the
interval, so 64 iterations reach the stopping rule for any interval of
length below `100 * 2 ^ 64`; once the rule holds the step is the identity. -/
def bisect_fuel : Nat := 64

/-- Embedding of the binary search on dividends (source lines 305-315):
narrow `(low, high)` while `high - low > 100`, probing
`calculate_complete_taxation(test_salary, mid, revenue, expenses)` — the
source passes no `vat_rate`, so the probe uses the Python default `0.20`. -/
def bisectDividends (test_salary revenue expenses target : ℚ) :
    Nat → ℚ × ℚ → ℚ × ℚ
  | 0, lh => lh
  | fuel + 1, (low, high) =>
    if high - low > 100 then
      let mid := (low + high) / 2
      let result := calculate_complete_taxation test_salary mid revenue expenses (20 / 100)
      if result.summary.net_income < target then
        bisectDividends test_salary revenue expenses target fuel (mid, high)
      else
        bisectDividends test_salary revenue expenses target fuel (low, mid)
    else (low, high)

/-- The 21 linearly spaced salary samples of the outer loop (source lines
287-289): `salary_steps = 20` and
`test_salary = min_salary + (max_salary - min_salary) * i / salary_steps`
for `i in range(salary_steps + 1)`. -/
def salary_samples (min_salary max_salary : ℚ) : List ℚ :=
  List.map (fun i : ℕ => min_salary + (max_salary - min_salary) * (i : ℚ) / 20)
    (List.range 21)

/-- One iteration of the outer loop of `optimize_remuneration` (source lines
288-329): skip the salary when `profit_before_tax <= 0` or
`available_for_dividends <= 0`, otherwise run the binary search on dividends,
evaluate the midpoint, and accept the pair when `|net_income - target| < 1000`
and its `total_taxes` beats the best so far. -/
def optStep (target revenue expenses test_salary : ℚ) (st : OptState) : OptState :=
  let salary_result := calculate_social_charges_on_salary test_salary
  let profit_before_tax := revenue - expenses - salary_result.total_cost_to_company
  if profit_before_tax ≤ 0 then st
  else
    let corporate_tax := calculate_corporate_tax profit_before_tax
    let available_for_dividends := profit_before_tax - corporate_tax
    if available_for_dividends ≤ 0 then st
    else
      let lh := bisectDividends test_salary revenue expenses target bisect_fuel
        (0, available_for_dividends)
      let test_dividends := (lh.1 + lh.2) / 2
      -- source: `calculate_complete_taxation(test_salary, test_dividends, revenue, expenses)`
      -- with the Python default `vat_rate = 0.20`
      let result := calculate_complete_taxation test_salary test_dividends revenue expenses (20 / 100)
      if |result.summary.net_income - target| < 1000 ∧
          lt_opt result.summary.total_taxes st.min_total_tax = true then
        { best_salary := test_salary
          best_dividends := test_dividends
          min_total_tax := some result.summary.total_taxes
          best_result := some result }
      else st

/-- The outer loop of `optimize_remuneration`: `optStep` folded over the
sampled salaries, in order. -/
def optimizeLoop (target revenue expenses : ℚ) :
    List ℚ → OptState → OptState
  | [], st => st
  | test_salary :: rest, st =>
    optimizeLoop target revenue expenses rest
      (optStep target revenue expenses test_salary st)

/-- Result dict of `optimize_remuneration`. -/
structure OptimizationResult where
  optimal_gross_salary : ℚ
  optimal_dividends : ℚ
  net_income_achieved : ℚ
  total_tax_burden : ℚ
  effective_tax_rate : ℚ
  breakdown : Summary
  full_calculation : TaxationResult
deriving Repr, DecidableEq

/-- Assembly of the returned dict of `optimize_remuneration` (source lines
331-347) from the final loop state: if no combination was accepted, fall
back to `(min_salary, 0)` and compute its breakdown unconditionally, again
with the default `vat_rate = 0.20`. -/
def assemble (min_salary revenue expenses : ℚ) (st : OptState) : OptimizationResult :=
  match st.best_result with
  | some best =>
    { optimal_gross_salary := st.best_salary
      optimal_dividends := st.best_dividends
      net_income_achieved := best.summary.net_income
      total_tax_burden := best.summary.total_taxes
      effective_tax_rate := best.summary.effective_tax_rate
      breakdown := best.summary
      full_calculation := best }
  | none =>
    -- source: fallback to minimum salary if no solution found
    let best := calculate_complete_taxation min_salary 0 revenue expenses (20 / 100)
    { optimal_gross_salary := min_salary
      optimal_dividends := 0
      net_income_achieved := best.summary.net_income
      total_tax_burden := best.summary.total_taxes
      effective_tax_rate := best.summary.effective_tax_rate
      breakdown := best.summary
      full_calculation := best }

/-- Embedding of `optimize_remuneration` (source lines 265-347).  The Python
signature takes no VAT-rate parameter; every internal call to
`calculate_complete_taxation` (probes, candidate evaluation, fallback) passes
no `vat_rate`, hence uses the default `0.20`.  `constraints = None` and a
missing key both fall back to the defaults `smic_annual` / `0.8 * revenue`. -/
def optimize_remuneration (target_net_income revenue expenses : ℚ)
    (constraints : Option Constraints) : OptimizationResult :=
  let c := constraints.getD { min_salary := none, max_salary := none }
  let min_salary := c.min_salary.getD smic_annual
  let max_salary := c.max_salary.getD (revenue * (8 / 10))
  let init : OptState :=
    { best_salary := min_salary
      best_dividends := 0
      min_total_tax := none
      best_result := none }
  assemble min_salary revenue expenses
    (optimizeLoop target_net_income revenue expenses
      (salary_samples min_salary max_salary) init)

/-!
Core marks `Rat.add`, `Rat.sub`, `Rat.mul` and `Rat.inv` irreducible, which
blocks `decide` on concrete rational arithmetic; restoring the default
reducibility lets the evaluations below go through kernel reduction.
-/
attribute [local semireducible] Rat.add Rat.sub Rat.mul Rat.inv

/-- The `dividends` field of a dividend breakdown: `0` on the non-positive
branch, the taxed amount itself otherwise. -/
lemma dividends_taxation_dividends (x : ℚ) :
    (calculate_dividends_taxation x).dividends = if x ≤ 0 then 0 else x := by
  unfold calculate_dividends_taxation
  by_cases h : x ≤ 0
  · simp only [if_pos h]
  · simp only [if_neg h]

/-- C1: in `calculate_complete_taxation` the dividends actually taxed are
`min(requestedDividends, max(0, profitAfterTax))` (the returned `dividends`
section is exactly the taxation of that capped amount), and whenever the
request exceeds `profitAfterTax` the returned `dividends.dividends` field
equals `max(0, profitAfterTax)`; the cap raises no error (the function is
total). -/
theorem claim_C1 (g d rev e v : ℚ) :
    (calculate_complete_taxation g d rev e v).dividends =
      calculate_dividends_taxation
        (min d (max 0 (calculate_complete_taxation g d rev e v).corporate.profit_after_tax)) ∧
    (d > (calculate_complete_taxation g d rev e v).corporate.profit_after_tax →
      (calculate_complete_taxation g d rev e v).dividends.dividends =
        max 0 (calculate_complete_taxation g d rev e v).corporate.profit_after_tax) := by
  constructor
  · rfl
  · intro h
    have key : ∀ pat : ℚ, d > pat →
        (calculate_dividends_taxation (min d (max 0 pat))).dividends = max 0 pat := by
      intro pat hdp
      rw [dividends_taxation_dividends]
      rcases le_or_lt pat 0 with hp | hp
      · rw [max_eq_left hp]
        rcases le_or_lt d 0 with hd | hd
        · rw [min_eq_left hd, if_pos hd]
        · rw [min_eq_right hd.le, if_pos le_rfl]
      · rw [max_eq_right hp.le, min_eq_right hdp.le, if_neg (not_le.mpr hp)]
    exact key _ h

/-- Witness for C1 at the spec's dividend-cap scenario
(`grossSalary = 0, dividends = 100000, revenue = 60000, expenses = 55000`):
the request exceeds `profitAfterTax = 4250` and the returned field is
`max 0 4250`. -/
theorem claim_C1_witness :
    (100000 : ℚ) > (calculate_complete_taxation 0 100000 60000 55000 (20 / 100)).corporate.profit_after_tax ∧
    (calculate_complete_taxation 0 100000 60000 55000 (20 / 100)).dividends.dividends =
      max 0 (calculate_complete_taxation 0 100000 60000 55000 (20 / 100)).corporate.profit_after_tax :=
  ⟨by decide, (claim_C1 0 100000 60000 55000 (20 / 100)).2 (by decide)⟩

/-- C3: the end-to-end scenario
`calculate_complete_taxation(40000, 0, 150000, 50000, 0.20)` yields
`profit_before_tax = 43200`, `corporate_tax = 6550` and `vat_to_pay = 20000`. -/
theorem claim_C3 :
    (calculate_complete_taxation 40000 0 150000 50000 (20 / 100)).corporate.profit_before_tax = 43200 ∧
    (calculate_complete_taxation 40000 0 150000 50000 (20 / 100)).corporate.corporate_tax = 6550 ∧
    (calculate_complete_taxation 40000 0 150000 50000 (20 / 100)).vat.vat_to_pay = 20000 := by
  decide

/-- On the fixed bracket table, an income per part inside the first (0%)
bracket is taxed `(incomePerPart - 0) * 0`. -/
lemma incomeTaxWalk_low (ipp prev acc : ℚ) (h : ipp ≤ 11294) :
    incomeTaxWalk ipp income_tax_brackets prev acc = acc + (ipp - prev) * 0 := by
  unfold income_tax_brackets incomeTaxWalk
  exact if_pos h

/-- C4 counterexample: the engine does not fail on invalid inputs.
`calculate_social_charges_on_salary(-1000)` returns a (negative) breakdown
instead of raising, and `calculate_income_tax(30000, parts = -2)` (a
non-positive `parts`) returns `0` instead of raising `InvalidInput`. -/
theorem claim_C4_counterexample :
    calculate_social_charges_on_salary (-1000) =
      { gross_salary := -1000, employer_charges := -420, employee_charges := -220,
        total_social_charges := -640, net_salary := -780, total_cost_to_company := -1420 } ∧
    calculate_income_tax_checked 30000 (-2) = some 0 := by
  decide

/-- C4 amended: the engine performs no input validation and raises no
`InvalidInput`.  `calculate_social_charges_on_salary` returns a breakdown
for every `grossSalary` (negative included, producing negative charges);
`calculate_income_tax` returns `0` for every `parts < 0` with positive
income (the divided income falls in the 0% bracket); only `parts = 0` with
positive income fails, and then with an unhandled `ZeroDivisionError`, not
`InvalidInput`. -/
theorem claim_C4_amended (g inc parts : ℚ) :
    ((calculate_social_charges_on_salary g).net_salary = g - g * (22 / 100) ∧
      (calculate_social_charges_on_salary g).total_cost_to_company = g + g * (42 / 100)) ∧
    (parts < 0 → 0 < inc → calculate_income_tax_checked inc parts = some 0) ∧
    (0 < inc → calculate_income_tax_checked inc 0 = none) := by
  refine ⟨⟨rfl, rfl⟩, ?_, ?_⟩
  · intro hp hi
    simp only [calculate_income_tax_checked, calculate_income_tax]
    rw [if_neg (not_le.mpr hi), if_neg (ne_of_lt hp)]
    have hipp : inc / parts ≤ 11294 := by
      have hneg : inc / parts < 0 := div_neg_of_pos_of_neg hi hp
      linarith
    rw [if_neg (not_le.mpr hi), incomeTaxWalk_low _ _ _ hipp]
    congr 1
    ring
  · intro hi
    simp only [calculate_income_tax_checked]
    rw [if_neg (not_le.mpr hi)]
    simp

/-- Witness for C4 amended at `g = -1000`, `inc = 30000`, `parts = -2`. -/
theorem claim_C4_amended_witness :
    ((-2 : ℚ) < 0 ∧ (0 : ℚ) < 30000) ∧
    calculate_income_tax_checked 30000 (-2) = some 0 ∧
    calculate_income_tax_checked 30000 0 = none ∧
    (calculate_social_charges_on_salary (-1000)).net_salary = -1000 - (-1000) * (22 / 100) :=
  ⟨⟨by decide, by decide⟩,
   (claim_C4_amended (-1000) 30000 (-2)).2.1 (by decide) (by decide),
   (claim_C4_amended (-1000) 30000 (-2)).2.2 (by decide),
   (claim_C4_amended (-1000) 30000 (-2)).1.1⟩

/-- C5 counterexample: for `dividends = 0` the breakdown of
`calculate_dividends_taxation` does not contain the `effective_rate` key
(modelled as `none`), so the field is not "present and equal to 0". -/
theorem claim_C5_counterexample :
    (calculate_dividends_taxation 0).effective_rate = none ∧
    ¬((calculate_dividends_taxation 0).effective_rate = some 0) := by
  decide

/-- C5 amended: for every `dividends <= 0` the returned breakdown has the
five fields `dividends`, `social_charges`, `income_tax`, `total_tax`,
`net_dividends` present and equal to `0`, but the `effective_rate` key is
absent (it is only produced on the positive branch). -/
theorem claim_C5_amended (d : ℚ) (h : d ≤ 0) :
    calculate_dividends_taxation d =
      { dividends := 0, social_charges := 0, income_tax := 0, total_tax := 0,
        net_dividends := 0, effective_rate := none } := by
  unfold calculate_dividends_taxation
  rw [if_pos h]

/-- Witness for C5 amended at `d = -3`. -/
theorem claim_C5_amended_witness :
    (-3 : ℚ) ≤ 0 ∧ calculate_dividends_taxation (-3) =
      { dividends := 0, social_charges := 0, income_tax := 0, total_tax := 0,
        net_dividends := 0, effective_rate := none } :=
  ⟨by decide, claim_C5_amended (-3) (by decide)⟩

/-- C6: the returned `effective_tax_rate` equals `total_taxes / revenue`
when `revenue > 0` and is exactly `0` when `revenue <= 0`; the division
branch is guarded, so no division by zero occurs. -/
theorem claim_C6 (g d rev e v : ℚ) :
    (0 < rev → (calculate_complete_taxation g d rev e v).summary.effective_tax_rate =
        (calculate_complete_taxation g d rev e v).summary.total_taxes / rev) ∧
    (rev ≤ 0 → (calculate_complete_taxation g d rev e v).summary.effective_tax_rate = 0) := by
  have key : (calculate_complete_taxation g d rev e v).summary.effective_tax_rate =
      if rev > 0 then (calculate_complete_taxation g d rev e v).summary.total_taxes / rev
      else 0 := rfl
  constructor
  · intro h
    rw [key, if_pos h]
  · intro h
    rw [key, if_neg (not_lt.mpr h)]

/-- Witness for C6 at `revenue = 150000` (positive branch) and
`revenue = -7` (non-positive branch). -/
theorem claim_C6_witness :
    ((0 : ℚ) < 150000 ∧
      (calculate_complete_taxation 40000 0 150000 50000 (20 / 100)).summary.effective_tax_rate =
        (calculate_complete_taxation 40000 0 150000 50000 (20 / 100)).summary.total_taxes / 150000) ∧
    ((-7 : ℚ) ≤ 0 ∧
      (calculate_complete_taxation 40000 0 (-7) 50000 (20 / 100)).summary.effective_tax_rate = 0) :=
  ⟨⟨by decide, (claim_C6 40000 0 150000 50000 (20 / 100)).1 (by decide)⟩,
   ⟨by decide, (claim_C6 40000 0 (-7) 50000 (20 / 100)).2 (by decide)⟩⟩

/-- C7: `calculate_complete_taxation` is deterministic — two calls with
identical arguments (on the fixed 2024 rate configuration) return identical
results; the function depends on nothing but its arguments. -/
theorem claim_C7 (g₁ d₁ r₁ e₁ v₁ g₂ d₂ r₂ e₂ v₂ : ℚ)
    (h : (g₁, d₁, r₁, e₁, v₁) = (g₂, d₂, r₂, e₂, v₂)) :
    calculate_complete_taxation g₁ d₁ r₁ e₁ v₁ = calculate_complete_taxation g₂ d₂ r₂ e₂ v₂ := by
  simp only [Prod.mk.injEq] at h
  obtain ⟨rfl, rfl, rfl, rfl, rfl⟩ := h
  rfl

/-- Witness for C7 at a concrete argument tuple. -/
theorem claim_C7_witness :
    calculate_complete_taxation 1 2 3 4 (20 / 100) =
      calculate_complete_taxation 1 2 3 4 (20 / 100) :=
  claim_C7 1 2 3 4 (20 / 100) 1 2 3 4 (20 / 100) rfl

/-- Closed form of `calculate_corporate_tax` on the fixed bracket table. -/
lemma corporate_tax_eq (p : ℚ) :
    calculate_corporate_tax p =
      if p ≤ 0 then 0
      else if p ≤ 42500 then p * (15 / 100)
      else 42500 * (15 / 100) + (p - 42500) * (25 / 100) := by
  unfold calculate_corporate_tax
  by_cases h0 : p ≤ 0
  · rw [if_pos h0, if_pos h0]
  · rw [if_neg h0, if_neg h0]
    show corpLoop p (some 42500) [(some 42500, 15 / 100), (none, 25 / 100)] p 0 = _
    simp only [corpLoop, if_true]
    rw [if_neg h0]
    rcases le_or_lt p 42500 with hle | hlt
    · simp only [if_neg (not_lt.mpr hle), if_pos (le_refl (0 : ℚ)), min_eq_left hle, if_pos hle]
      ring
    · simp only [if_pos hlt, min_eq_right hlt.le, if_neg (not_le.mpr hlt)]
      have hc : ¬(p - 42500 ≤ 0) := by linarith
      rw [if_neg hc]
      ring

/-- C2: `calculate_corporate_tax` returns `0` for every non-positive profit;
for positive profit the ascending bracket walk taxes everything up to the
`42500` boundary (inclusive) at `15%` and the remainder at `25%`; in
particular the boundary values `42500` and `42501` come out as the spec
states. -/
theorem claim_C2 (p : ℚ) :
    (p ≤ 0 → calculate_corporate_tax p = 0) ∧
    (0 < p → p ≤ 42500 → calculate_corporate_tax p = p * (15 / 100)) ∧
    (42500 < p → calculate_corporate_tax p = 42500 * (15 / 100) + (p - 42500) * (25 / 100)) ∧
    calculate_corporate_tax 42500 = 42500 * (15 / 100) ∧
    calculate_corporate_tax 42501 = 42500 * (15 / 100) + 1 * (25 / 100) := by
  refine ⟨?_, ?_, ?_, by decide, by decide⟩
  · intro h
    rw [corporate_tax_eq, if_pos h]
  · intro h0 h1
    rw [corporate_tax_eq, if_neg (not_le.mpr h0), if_pos h1]
  · intro h
    rw [corporate_tax_eq, if_neg (not_le.mpr (by linarith)), if_neg (not_le.mpr h)]

/-- Witness for C2 at `p = -5` (non-positive), `p = 100` (first bracket)
and `p = 50000` (second bracket). -/
theorem claim_C2_witness :
    ((-5 : ℚ) ≤ 0 ∧ calculate_corporate_tax (-5) = 0) ∧
    ((0 : ℚ) < 100 ∧ (100 : ℚ) ≤ 42500 ∧ calculate_corporate_tax 100 = 100 * (15 / 100)) ∧
    ((42500 : ℚ) < 50000 ∧
      calculate_corporate_tax 50000 = 42500 * (15 / 100) + (50000 - 42500) * (25 / 100)) :=
  ⟨⟨by decide, (claim_C2 (-5)).1 (by decide)⟩,
   ⟨by decide, by decide, (claim_C2 100).2.1 (by decide) (by decide)⟩,
   ⟨by decide, (claim_C2 50000).2.2.1 (by decide)⟩⟩

/-- One loop iteration either leaves the state unchanged or stores an
accepted pair: the sampled salary, some dividend value, and the full
calculation at the default VAT rate, whose net income meets the
`|net_income - target| < 1000` tolerance. -/
lemma optStep_cases (t rev e s : ℚ) (st : OptState) :
    optStep t rev e s st = st ∨
    ∃ d : ℚ,
      optStep t rev e s st =
        { best_salary := s, best_dividends := d,
          min_total_tax := some (calculate_complete_taxation s d rev e (20 / 100)).summary.total_taxes,
          best_result := some (calculate_complete_taxation s d rev e (20 / 100)) } ∧
      |(calculate_complete_taxation s d rev e (20 / 100)).summary.net_income - t| < 1000 := by
  simp only [optStep]
  split_ifs with h1 h2 h3
  · exact Or.inl rfl
  · exact Or.inl rfl
  · exact Or.inr ⟨_, rfl, h3.1⟩
  · exact Or.inl rfl

/-- The outer loop either returns its initial state unchanged or a state
whose stored best is an accepted pair at one of the sampled salaries. -/
lemma optimizeLoop_cases (t rev e : ℚ) (samples : List ℚ) (st : OptState) :
    optimizeLoop t rev e samples st = st ∨
    ∃ s ∈ samples, ∃ d : ℚ,
      (optimizeLoop t rev e samples st).best_salary = s ∧
      (optimizeLoop t rev e samples st).best_dividends = d ∧
      (optimizeLoop t rev e samples st).best_result =
        some (calculate_complete_taxation s d rev e (20 / 100)) ∧
      |(calculate_complete_taxation s d rev e (20 / 100)).summary.net_income - t| < 1000 := by
  induction samples generalizing st with
  | nil => exact Or.inl rfl
  | cons s rest ih =>
    have hstep : optimizeLoop t rev e (s :: rest) st =
        optimizeLoop t rev e rest (optStep t rev e s st) := rfl
    rcases optStep_cases t rev e s st with h | ⟨d, hnew, htol⟩
    · rw [hstep, h]
      rcases ih st with h2 | ⟨s', hs', d', h3, h4, h5, h6⟩
      · exact Or.inl h2
      · exact Or.inr ⟨s', List.mem_cons_of_mem _ hs', d', h3, h4, h5, h6⟩
    · rw [hstep, hnew]
      rcases ih ⟨s, d, some (calculate_complete_taxation s d rev e (20 / 100)).summary.total_taxes,
          some (calculate_complete_taxation s d rev e (20 / 100))⟩ with h2 | ⟨s', hs', d', h3, h4, h5, h6⟩
      · exact Or.inr ⟨s, List.mem_cons_self s rest, d, by rw [h2], by rw [h2], by rw [h2], htol⟩
      · exact Or.inr ⟨s', List.mem_cons_of_mem _ hs', d', h3, h4, h5, h6⟩

/-- When nothing was accepted, `assemble` builds the fallback record from
`(min_salary, 0)`. -/
lemma assemble_none (mn rev e : ℚ) (st : OptState) (h : st.best_result = none) :
    assemble mn rev e st =
      { optimal_gross_salary := mn
        optimal_dividends := 0
        net_income_achieved := (calculate_complete_taxation mn 0 rev e (20 / 100)).summary.net_income
        total_tax_burden := (calculate_complete_taxation mn 0 rev e (20 / 100)).summary.total_taxes
        effective_tax_rate := (calculate_complete_taxation mn 0 rev e (20 / 100)).summary.effective_tax_rate
        breakdown := (calculate_complete_taxation mn 0 rev e (20 / 100)).summary
        full_calculation := calculate_complete_taxation mn 0 rev e (20 / 100) } := by
  unfold assemble
  rw [h]

/-- When a best result was stored, `assemble` returns it together with the
stored salary and dividends. -/
lemma assemble_some (mn rev e : ℚ) (st : OptState) (best : TaxationResult)
    (h : st.best_result = some best) :
    assemble mn rev e st =
      { optimal_gross_salary := st.best_salary
        optimal_dividends := st.best_dividends
        net_income_achieved := best.summary.net_income
        total_tax_burden := best.summary.total_taxes
        effective_tax_rate := best.summary.effective_tax_rate
        breakdown := best.summary
        full_calculation := best } := by
  unfold assemble
  rw [h]

/-- Dichotomy of `optimize_remuneration`: the returned record is either the
`(min_salary, 0)` fallback with its unconditional breakdown, or an accepted
pair — a sampled salary with a dividend value whose full calculation (at the
default VAT rate) meets the `< 1000` net-income tolerance. -/
lemma optimize_remuneration_cases (t rev e : ℚ) (c : Option Constraints) :
    ((optimize_remuneration t rev e c).optimal_gross_salary =
        (c.getD { min_salary := none, max_salary := none }).min_salary.getD smic_annual ∧
      (optimize_remuneration t rev e c).optimal_dividends = 0 ∧
      (optimize_remuneration t rev e c).full_calculation =
        calculate_complete_taxation
          ((c.getD { min_salary := none, max_salary := none }).min_salary.getD smic_annual)
          0 rev e (20 / 100)) ∨
    (∃ s ∈ salary_samples
        ((c.getD { min_salary := none, max_salary := none }).min_salary.getD smic_annual)
        ((c.getD { min_salary := none, max_salary := none }).max_salary.getD (rev * (8 / 10))),
      ∃ d : ℚ,
        (optimize_remuneration t rev e c).optimal_gross_salary = s ∧
        (optimize_remuneration t rev e c).optimal_dividends = d ∧
        (optimize_remuneration t rev e c).full_calculation =
          calculate_complete_taxation s d rev e (20 / 100) ∧
        (optimize_remuneration t rev e c).net_income_achieved =
          (calculate_complete_taxation s d rev e (20 / 100)).summary.net_income ∧
        |(optimize_remuneration t rev e c).net_income_achieved - t| < 1000) := by
  have hopt : optimize_remuneration t rev e c =
      assemble ((c.getD { min_salary := none, max_salary := none }).min_salary.getD smic_annual)
        rev e
        (optimizeLoop t rev e
          (salary_samples
            ((c.getD { min_salary := none, max_salary := none }).min_salary.getD smic_annual)
            ((c.getD { min_salary := none, max_salary := none }).max_salary.getD (rev * (8 / 10))))
          { best_salary := (c.getD { min_salary := none, max_salary := none }).min_salary.getD smic_annual
            best_dividends := 0
            min_total_tax := none
            best_result := none }) := rfl
  rcases optimizeLoop_cases t rev e
      (salary_samples
        ((c.getD { min_salary := none, max_salary := none }).min_salary.getD smic_annual)
        ((c.getD { min_salary := none, max_salary := none }).max_salary.getD (rev * (8 / 10))))
      { best_salary := (c.getD { min_salary := none, max_salary := none }).min_salary.getD smic_annual
        best_dividends := 0
        min_total_tax := none
        best_result := none } with hid | ⟨s, hs, d, h1, h2, h3, h4⟩
  · left
    rw [hopt, hid, assemble_none _ _ _ _ rfl]
    exact ⟨rfl, rfl, rfl⟩
  · right
    refine ⟨s, hs, d, ?_, ?_, ?_, ?_, ?_⟩
    · rw [hopt, assemble_some _ _ _ _ _ h3]
      exact h1
    · rw [hopt, assemble_some _ _ _ _ _ h3]
      exact h2
    · rw [hopt, assemble_some _ _ _ _ _ h3]
    · rw [hopt, assemble_some _ _ _ _ _ h3]
    · rw [hopt, assemble_some _ _ _ _ _ h3]
      exact h4

/-- For descending constraints (`max_salary <= min_salary`) every sampled
salary `min + (max - min) * i / 20` still lies between the two bounds. -/
lemma salary_samples_mem_ge (a b x : ℚ) (hab : b ≤ a) (hx : x ∈ salary_samples a b) :
    b ≤ x ∧ x ≤ a := by
  unfold salary_samples at hx
  rw [List.mem_map] at hx
  obtain ⟨i, hi, rfl⟩ := hx
  rw [List.mem_range] at hi
  have h0 : (0 : ℚ) ≤ (i : ℚ) := Nat.cast_nonneg i
  have h20 : (i : ℚ) ≤ 20 := by
    have hle : i ≤ 20 := Nat.lt_succ_iff.mp hi
    exact_mod_cast hle
  have hba : b - a ≤ 0 := by linarith
  constructor
  · have hmul : (b - a) * 20 ≤ (b - a) * (i : ℚ) := mul_le_mul_of_nonpos_left h20 hba
    have hdiv : (b - a) * 20 / 20 ≤ (b - a) * (i : ℚ) / 20 :=
      (div_le_div_iff_of_pos_right (by norm_num : (0 : ℚ) < 20)).mpr hmul
    have h2020 : (b - a) * 20 / 20 = b - a := by ring
    linarith
  · have hmul : (b - a) * (i : ℚ) ≤ 0 := by nlinarith
    have hdiv : (b - a) * (i : ℚ) / 20 ≤ 0 / 20 :=
      (div_le_div_iff_of_pos_right (by norm_num : (0 : ℚ) < 20)).mpr hmul
    rw [zero_div] at hdiv
    linarith

set_option maxRecDepth 10000 in
/-- C8: the optimizer samples salary at exactly 21 linearly spaced points,
and on `optimizeRemuneration(target=50000, revenue=120000, expenses=30000,
constraints={})` it returns a salary within `[smic_annual, 0.8 * 120000]`
whose achieved net income is within 1000 of the target (the explicit
`(smic_annual, 0)` fallback is the alternative the claim allows). -/
theorem claim_C8 :
    (salary_samples smic_annual (120000 * (8 / 10))).length = 21 ∧
    ((smic_annual ≤ (optimize_remuneration 50000 120000 30000 none).optimal_gross_salary ∧
        (optimize_remuneration 50000 120000 30000 none).optimal_gross_salary ≤ 120000 * (8 / 10) ∧
        |(optimize_remuneration 50000 120000 30000 none).net_income_achieved - 50000| < 1000) ∨
      ((optimize_remuneration 50000 120000 30000 none).optimal_gross_salary = smic_annual ∧
        (optimize_remuneration 50000 120000 30000 none).optimal_dividends = 0)) := by
  constructor
  · rfl
  · exact Or.inl (by decide)

set_option maxRecDepth 10000 in
/-- C9 counterexample: with `min_salary = 2000 > 1000 = max_salary` (and
`target = 500`, `revenue = 10000`, `expenses = 8530`) the optimizer does NOT
fall back to `(min_salary, 0)`: the 21 descending samples are still
evaluated, the sample at salary `1000` is accepted, and the result carries
`optimal_dividends = 85/4 ≠ 0` and a salary below `min_salary`. -/
theorem claim_C9_counterexample :
    (2000 : ℚ) > 1000 ∧
    (optimize_remuneration 500 10000 8530
        (some { min_salary := some 2000, max_salary := some 1000 })).optimal_gross_salary = 1000 ∧
    (optimize_remuneration 500 10000 8530
        (some { min_salary := some 2000, max_salary := some 1000 })).optimal_dividends = 85 / 4 ∧
    ¬((optimize_remuneration 500 10000 8530
          (some { min_salary := some 2000, max_salary := some 1000 })).optimal_gross_salary = 2000 ∧
      (optimize_remuneration 500 10000 8530
          (some { min_salary := some 2000, max_salary := some 1000 })).optimal_dividends = 0) := by
  decide

/-- C9 amended: constraints with `minSalary > maxSalary` do not yield zero
sample points — the loop still evaluates the 21 salaries spaced (descending)
from `minSalary` to `maxSalary` and may accept one of them.  The result is
either the `(minSalary, 0)` fallback (when no sample meets the tolerance) or
an accepted sampled salary, which then lies in `[maxSalary, minSalary]` with
`|netIncomeAchieved - target| < 1000`. -/
theorem claim_C9_amended (t rev e mn mx : ℚ) (h : mx < mn) :
    ((optimize_remuneration t rev e
          (some { min_salary := some mn, max_salary := some mx })).optimal_gross_salary = mn ∧
      (optimize_remuneration t rev e
          (some { min_salary := some mn, max_salary := some mx })).optimal_dividends = 0) ∨
    (mx ≤ (optimize_remuneration t rev e
          (some { min_salary := some mn, max_salary := some mx })).optimal_gross_salary ∧
      (optimize_remuneration t rev e
          (some { min_salary := some mn, max_salary := some mx })).optimal_gross_salary ≤ mn ∧
      |(optimize_remuneration t rev e
          (some { min_salary := some mn, max_salary := some mx })).net_income_achieved - t| < 1000) := by
  rcases optimize_remuneration_cases t rev e (some { min_salary := some mn, max_salary := some mx })
    with ⟨h1, h2, _⟩ | ⟨s, hs, d, h1, h2, _, _, h5⟩
  · exact Or.inl ⟨h1, h2⟩
  · right
    have hs' : s ∈ salary_samples mn mx := hs
    have hb := salary_samples_mem_ge mn mx s h.le hs'
    rw [h1]
    exact ⟨hb.1, hb.2, h5⟩

/-- Witness for C9 amended at the counterexample input
(`min_salary = 2000 > 1000 = max_salary`). -/
theorem claim_C9_amended_witness :
    (1000 : ℚ) < 2000 ∧
    (((optimize_remuneration 500 10000 8530
          (some { min_salary := some 2000, max_salary := some 1000 })).optimal_gross_salary = 2000 ∧
      (optimize_remuneration 500 10000 8530
          (some { min_salary := some 2000, max_salary := some 1000 })).optimal_dividends = 0) ∨
     ((1000 : ℚ) ≤ (optimize_remuneration 500 10000 8530
          (some { min_salary := some 2000, max_salary := some 1000 })).optimal_gross_salary ∧
      (optimize_remuneration 500 10000 8530
          (some { min_salary := some 2000, max_salary := some 1000 })).optimal_gross_salary ≤ 2000 ∧
      |(optimize_remuneration 500 10000 8530
          (some { min_salary := some 2000, max_salary := some 1000 })).net_income_achieved - 500| < 1000)) :=
  ⟨by decide, claim_C9_amended 500 10000 8530 2000 1000 (by decide)⟩

/-- C10: `optimize_remuneration` takes no VAT-rate parameter, and every path
to the returned `full_calculation` (accepted candidate or fallback) calls
`calculate_complete_taxation` with the default `vat_rate = 0.20`; hence the
returned VAT section is always `calculate_vat(revenue, expenses, 0.20)` and
its `vat_rate` field is `1/5`, whatever the company's actual VAT regime. -/
theorem claim_C10 (t rev e : ℚ) (c : Option Constraints) :
    (optimize_remuneration t rev e c).full_calculation.vat = calculate_vat rev e (20 / 100) ∧
    (optimize_remuneration t rev e c).full_calculation.vat.vat_rate = 1 / 5 := by
  have hv : (optimize_remuneration t rev e c).full_calculation.vat = calculate_vat rev e (20 / 100) := by
    rcases optimize_remuneration_cases t rev e c with ⟨_, _, h3⟩ | ⟨s, _, d, _, _, h3, _, _⟩
    · rw [h3]
      rfl
    · rw [h3]
      rfl
  refine ⟨hv, ?_⟩
  rw [hv]
  show (20 : ℚ) / 100 = 1 / 5
  norm_num
